import Mathlib

/-!
Verification development for the geological simulation core of vibe-city-2
(`game/src/game.ts`).

Modelling conventions:
* JavaScript numbers are modelled as exact rationals (`ℚ`); elevations stored
  in `GeologyData` are integers (`ℤ`) because the source rounds them.
* A heightmap is modelled as a total function `ℕ → ℕ → ℚ` (row `y` first, as in
  `heightmap[y][x]`); all loops touch only indices inside `[0, size)`, exactly
  as the source does, so the behaviour on out-of-range indices is irrelevant.
* `Math.sin`, `Math.cos`, `Math.exp`, `Math.sqrt` are fixed deterministic
  functions of their argument.  They are modelled by an abstract structure
  `RealFns` carrying the two bounds the code relies on (`|sin| ≤ 1`,
  `|cos| ≤ 1`).  Every derivation function takes a `RealFns` parameter; the
  source's determinism corresponds to the parameter being fixed.
* `Math.random()` (the ambient random source) is modelled as an injected
  stream `ℕ → ℚ` of values in `[0,1)`; each randomness-consuming function
  receives its own stream, with successive calls reading successive indices.
-/

namespace VibeCity

/-- A heightfield: `g y x` is `heightmap[y][x]`. -/
abbrev Grid := ℕ → ℕ → ℚ

/-- Single-cell store `result[y][x] = v` on a functional grid. -/
def update2 (g : Grid) (y x : ℕ) (v : ℚ) : Grid :=
  fun y' x' => if y' = y ∧ x' = x then v else g y' x'

/-- Sum of all cell values of the `size × size` grid. -/
def gridSum (size : ℕ) (g : Grid) : ℚ :=
  ∑ y ∈ Finset.range size, ∑ x ∈ Finset.range size, g y x

/-- Abstract model of the JavaScript `Math` trigonometric/exponential
functions: fixed, deterministic real functions.  Only the boundedness of
sine and cosine is ever used by the code's clamping logic. -/
structure RealFns where
  sin : ℚ → ℚ
  cos : ℚ → ℚ
  exp : ℚ → ℚ
  sqrt : ℚ → ℚ
  sin_bound : ∀ t, -1 ≤ sin t ∧ sin t ≤ 1
  cos_bound : ∀ t, -1 ≤ cos t ∧ cos t ≤ 1

/-- A trivial instantiation of `RealFns`, used to evaluate the model on
concrete inputs. -/
def zeroFns : RealFns where
  sin := fun _ => 0
  cos := fun _ => 0
  exp := fun _ => 1
  sqrt := fun _ => 0
  sin_bound := fun _ => by norm_num
  cos_bound := fun _ => by norm_num

-- Types and Interfaces (game.ts lines 1-65)

inductive SoilType where
  | CLAY | SAND | LOAM | ROCK
deriving DecidableEq, Repr

inductive BedrockType where
  | GRANITE | LIMESTONE | SANDSTONE | SHALE
deriving DecidableEq, Repr

inductive ResourceType where
  | SPRING | RIVER | SEASONAL_STREAM
  | BERRIES | NUTS | EDIBLE_PLANTS | GAME_TRAIL
  | FLINT | OBSIDIAN | CLAY_DEPOSIT | HARDWOOD | SOFTWOOD
  | CAVE | ROCK_SHELTER
deriving DecidableEq, Repr

structure Resource where
  type : ResourceType
  abundance : ℚ
  seasonal : Bool
  accessibility : ℚ
deriving DecidableEq, Repr

structure GeologyData where
  elevation : ℤ
  soilType : SoilType
  soilDepth : ℚ
  bedrockType : BedrockType
  waterTableDepth : ℚ
  drainage : ℚ
  stability : ℚ
  excavationCost : ℚ
deriving DecidableEq, Repr

structure TerrainTile where
  x : ℕ
  y : ℕ
  geology : GeologyData
  buildable : Bool
  resources : List Resource
deriving DecidableEq, Repr

/-- JavaScript `a % 1` on a float: remainder truncated toward zero. -/
def jsMod1 (q : ℚ) : ℚ :=
  if 0 ≤ q then q - ⌊q⌋ else q - ⌈q⌉

-- Resource Generation Functions (game.ts lines 818-1053)

/-- The coordinate-seeded pseudo-random hash used by `generateResources`:
`(Math.sin(seed * 12.9898 + 78.233) % 1 + 1) / 2`. -/
def seededRandom (fns : RealFns) (seed : ℚ) : ℚ :=
  (jsMod1 (fns.sin (seed * (129898/10000) + 78233/1000)) + 1) / 2

/-- `generateResources(geology, x, y)`: deterministic per-cell resource list.
No ambient randomness: only the coordinate-seeded hash `seededRandom`. -/
def generateResources (fns : RealFns) (geology : GeologyData) (x y : ℕ) :
    List Resource :=
  let random : ℚ → ℚ := fun seed => seededRandom fns seed
  let r0 : List Resource :=
    if geology.waterTableDepth < 1 then
      [{ type := .SPRING, abundance := 1 - geology.waterTableDepth,
         seasonal := false, accessibility := geology.stability }]
    else []
  let r1 : List Resource :=
    if geology.elevation < 30 ∧ geology.drainage > 7/10 then
      r0 ++ [{ type := .RIVER, abundance := 8/10, seasonal := false,
               accessibility := 9/10 }]
    else r0
  let r2 : List Resource :=
    if geology.elevation > 20 ∧ geology.elevation < 60 ∧ geology.drainage > 4/10 then
      r1 ++ [{ type := .SEASONAL_STREAM, abundance := 6/10, seasonal := true,
               accessibility := 7/10 }]
    else r1
  let moistureLevel : ℚ := 1 - geology.waterTableDepth / 10
  let hasNearbyWater : Bool := r2.any fun r =>
    r.type = .SPRING ∨ r.type = .RIVER ∨ r.type = .SEASONAL_STREAM
  let xq : ℚ := x
  let yq : ℚ := y
  let r3 : List Resource :=
    if geology.elevation < 30 ∧ geology.soilType ≠ .ROCK then
      let berryChance := random (xq * 100 + yq * 200 + 1)
      let moistureBonus : ℚ :=
        if hasNearbyWater then 3/10 else moistureLevel * (2/10)
      let ra :=
        if berryChance > 6/10 - moistureBonus then
          r2 ++ [{ type := .BERRIES,
                   abundance := min (9/10) (5/10 + moistureLevel * (4/10)),
                   seasonal := true, accessibility := 9/10 }]
        else r2
      let plantChance := random (xq * 80 + yq * 180 + 10)
      if plantChance > 7/10 - moistureBonus then
        ra ++ [{ type := .EDIBLE_PLANTS,
                 abundance := min (8/10) (4/10 + moistureLevel * (4/10)),
                 seasonal := true, accessibility := 95/100 }]
      else ra
    else if geology.elevation ≥ 30 ∧ geology.elevation < 60 ∧ geology.soilType ≠ .ROCK then
      let nutChance := random (xq * 150 + yq * 250 + 2)
      let elevationBonus : ℚ := ((geology.elevation : ℚ) - 30) / 30 * (2/10)
      let ra :=
        if nutChance > 7/10 - elevationBonus then
          r2 ++ [{ type := .NUTS, abundance := min (8/10) (5/10 + elevationBonus),
                   seasonal := true, accessibility := 8/10 }]
        else r2
      if moistureLevel > 4/10 then
        let berryChance := random (xq * 100 + yq * 200 + 1)
        if berryChance > 8/10 then
          ra ++ [{ type := .BERRIES, abundance := 6/10, seasonal := true,
                   accessibility := 8/10 }]
        else ra
      else ra
    else if geology.elevation ≥ 60 ∧ geology.soilType ≠ .ROCK then
      let alpinePlantChance := random (xq * 300 + yq * 400 + 11)
      if alpinePlantChance > 85/100 then
        r2 ++ [{ type := .EDIBLE_PLANTS, abundance := 3/10, seasonal := true,
                 accessibility := 6/10 }]
      else r2
    else r2
  let r4 : List Resource :=
    if geology.elevation > 10 ∧ geology.elevation < 70 ∧ geology.stability > 6/10 then
      let gameChance := random (xq * 80 + yq * 120 + 3)
      if gameChance > 75/100 then
        r3 ++ [{ type := .GAME_TRAIL, abundance := 6/10, seasonal := false,
                 accessibility := geology.stability }]
      else r3
    else r3
  let r5 : List Resource :=
    if geology.bedrockType = .LIMESTONE then
      let flintChance := random (xq * 200 + yq * 300 + 4)
      if flintChance > 85/100 then
        r4 ++ [{ type := .FLINT, abundance := 7/10, seasonal := false,
                 accessibility := 1 - geology.excavationCost / 5 }]
      else r4
    else r4
  let r6 : List Resource :=
    if geology.bedrockType = .GRANITE ∧ geology.elevation > 50 then
      let obsidianChance := random (xq * 250 + yq * 350 + 5)
      if obsidianChance > 9/10 then
        r5 ++ [{ type := .OBSIDIAN, abundance := 9/10, seasonal := false,
                 accessibility := 3/10 }]
      else r5
    else r5
  let r7 : List Resource :=
    if geology.soilType = .CLAY ∧ geology.waterTableDepth < 3 then
      r6 ++ [{ type := .CLAY_DEPOSIT, abundance := 8/10, seasonal := false,
               accessibility := 1 - geology.excavationCost / 5 }]
    else r6
  let r8 : List Resource :=
    if geology.soilType ≠ .ROCK then
      let ra :=
        if geology.elevation < 40 ∧ geology.soilType = .LOAM ∧ moistureLevel > 5/10 then
          let hardwoodChance := random (xq * 180 + yq * 280 + 6)
          let forestBonus : ℚ := if hasNearbyWater then 2/10 else 0
          if hardwoodChance > 5/10 - forestBonus then
            r7 ++ [{ type := .HARDWOOD,
                     abundance := min (9/10) (6/10 + moistureLevel * (3/10)),
                     seasonal := false, accessibility := 8/10 }]
          else r7
        else r7
      let rb :=
        if geology.elevation > 25 ∧ geology.elevation < 80 then
          let softwoodChance := random (xq * 220 + yq * 320 + 7)
          let elevationBonus : ℚ := if geology.elevation > 50 then 2/10 else 0
          if softwoodChance > 6/10 - elevationBonus then
            ra ++ [{ type := .SOFTWOOD,
                     abundance := if geology.elevation > 50 then 8/10 else 6/10,
                     seasonal := false,
                     accessibility := if geology.elevation > 60 then 7/10 else 9/10 }]
          else ra
        else ra
      if geology.elevation ≥ 20 ∧ geology.elevation ≤ 45 ∧ moistureLevel > 3/10 then
        let mixedChance := random (xq * 250 + yq * 350 + 12)
        if mixedChance > 7/10 then
          rb ++ [{ type := .HARDWOOD, abundance := 5/10, seasonal := false,
                   accessibility := 8/10 },
                 { type := .SOFTWOOD, abundance := 5/10, seasonal := false,
                   accessibility := 9/10 }]
        else rb
      else rb
    else r7
  if geology.elevation > 30 ∧ geology.bedrockType ≠ .SHALE then
    let caveChance := random (xq * 300 + yq * 400 + 8)
    let ra :=
      if caveChance > 92/100 then
        r8 ++ [{ type := .CAVE, abundance := 1, seasonal := false,
                 accessibility := 6/10 }]
      else r8
    let shelterChance := random (xq * 350 + yq * 450 + 9)
    if shelterChance > 85/100 then
      ra ++ [{ type := .ROCK_SHELTER, abundance := 8/10, seasonal := false,
               accessibility := 8/10 }]
    else ra
  else r8

-- Terrain Generation Functions (game.ts lines 576-730)

/-- `createHeightmap(size)`: every cell `35 + (Math.random() - 0.5) * 8`,
filled row-major, so cell `(y, x)` consumes the `y*size + x`-th call of the
injected random stream. -/
def createHeightmap (rnd : ℕ → ℚ) (size : ℕ) : Grid :=
  fun y x => 35 + (rnd (y * size + x) - 1/2) * 8

/-- The fixed hill-center table of `applyTectonicUplift`:
`(x, y, strength)`. -/
def hillCenters : List (ℚ × ℚ × ℚ) :=
  [(12, 15, 12/10), (35, 8, 1), (28, 25, 11/10), (8, 35, 8/10),
   (42, 32, 1), (20, 40, 7/10), (38, 18, 9/10), (15, 28, 6/10)]

/-- Uplift contribution of all hill centers at interior cell `(x, y)`. -/
def totalUplift (fns : RealFns) (intensity : ℚ) (x y : ℕ) : ℚ :=
  hillCenters.foldl
    (fun acc hill =>
      let distance := fns.sqrt (((x : ℚ) - hill.1) ^ 2 + ((y : ℚ) - hill.2.1) ^ 2)
      let maxRadius : ℚ := 15
      if distance < maxRadius then
        let falloff := fns.exp (-(distance * distance) / (2 * (maxRadius / 3) ^ 2))
        acc + hill.2.2 * falloff * intensity * (5/10)
      else acc)
    0

/-- `applyTectonicUplift(heightmap, mapSize, intensity)`.  The per-cell random
perturbation consumes one stream value per interior cell; the stream counter
is threaded through the row-major fold exactly as `Math.random()` calls are. -/
def applyTectonicUplift (fns : RealFns) (rnd : ℕ → ℚ) (heightmap : Grid)
    (mapSize : ℕ) (intensity : ℚ) : Grid :=
  let step := fun (st : Grid × ℕ) ((y, x) : ℕ × ℕ) =>
    let noise := (rnd st.2 - 1/2) * intensity * (5/100)
    (update2 st.1 y x (st.1 y x + totalUplift fns intensity x y + noise), st.2 + 1)
  (((List.range' 2 (mapSize - 4)).flatMap fun y =>
      (List.range' 2 (mapSize - 4)).map fun x => (y, x)).foldl step
    (heightmap, 0)).1

/-- Starting cell of hydraulic-erosion drop number `drop`:
`x = Math.floor(Math.random() * mapSize)`, `y = Math.floor(Math.random() * mapSize)`.
Each drop consumes exactly those two random calls, so drop `k` reads stream
indices `2k` and `2k + 1`. -/
def dropStart (rnd : ℕ → ℚ) (mapSize : ℕ) (drop : ℕ) : ℕ × ℕ :=
  ((⌊rnd (2 * drop) * mapSize⌋).toNat, (⌊rnd (2 * drop + 1) * mapSize⌋).toNat)

/-- Starting cells of all drops simulated by `applyHydraulicErosion`:
the loop `for (drop = 0; drop < mapSize * 2; drop++)`. -/
def dropStarts (rnd : ℕ → ℚ) (mapSize : ℕ) : List (ℕ × ℕ) :=
  (List.range (mapSize * 2)).map (dropStart rnd mapSize)

/-- The 8 neighbour offsets `(dx, dy)` in the scan order of the erosion
kernels: `dx` outer, `dy` inner, skipping `(0, 0)`. -/
def offsetsDxDy : List (ℤ × ℤ) :=
  [(-1, -1), (-1, 0), (-1, 1), (0, -1), (0, 1), (1, -1), (1, 0), (1, 1)]

/-- Steepest-descent scan of `applyHydraulicErosion`: returns
`(steepestGradient, nextX, nextY)`, starting from `(0, x, y)`. -/
def steepestDescent (result : Grid) (mapSize x y : ℕ) : ℚ × ℕ × ℕ :=
  offsetsDxDy.foldl
    (fun st d =>
      let nx : ℤ := (x : ℤ) + d.1
      let ny : ℤ := (y : ℤ) + d.2
      if 0 ≤ nx ∧ nx < mapSize ∧ 0 ≤ ny ∧ ny < mapSize then
        let gradient := result y x - result ny.toNat nx.toNat
        if gradient > st.1 then (gradient, nx.toNat, ny.toNat) else st
      else st)
    (0, x, y)

/-- One water drop of `applyHydraulicErosion`, traced for at most 30 steps
(fuel-indexed inner loop; state is `(x, y, sediment, grid)`). -/
def dropSteps (mapSize : ℕ) : ℕ → ℕ → ℕ → ℚ → Grid → Grid
  | 0, _, _, _, result => result
  | fuel + 1, x, y, sediment, result =>
    if x ≤ 2 ∨ mapSize - 3 ≤ x ∨ y ≤ 2 ∨ mapSize - 3 ≤ y then result
    else
      let s := steepestDescent result mapSize x y
      if s.1 ≤ 0 then update2 result y x (result y x + sediment)
      else
        let erosion := min (s.1 * (4/10)) 1
        let r1 := update2 result y x (result y x - erosion)
        let sediment1 := sediment + erosion
        let (r2, sediment2) :=
          if sediment1 > 2 then
            (update2 r1 y x (r1 y x + (sediment1 - 2)), (2 : ℚ))
          else (r1, sediment1)
        dropSteps mapSize fuel s.2.1 s.2.2 sediment2 r2

/-- `applyHydraulicErosion(heightmap, mapSize)`: simulates `mapSize * 2`
drops, each starting at `dropStart` and traced by `dropSteps` (erosion rate
0.4, sediment capacity 2.0). -/
def applyHydraulicErosion (rnd : ℕ → ℚ) (heightmap : Grid) (mapSize : ℕ) :
    Grid :=
  (dropStarts rnd mapSize).foldl
    (fun result p => dropSteps mapSize 30 p.1 p.2 0 result) heightmap

/-- One neighbour comparison of `applyThermalErosion` at interior cell
`(y, x)`: `currentHeight` is the (stale) height read at the start of the
cell's scan, the neighbour height is read from the current grid. -/
def thermalNeighbor (y x : ℕ) (currentHeight : ℚ) (result : Grid)
    (d : ℤ × ℤ) : Grid :=
  let nx := ((x : ℤ) + d.1).toNat
  let ny := ((y : ℤ) + d.2).toNat
  let neighborHeight := result ny nx
  let heightDiff := currentHeight - neighborHeight
  if heightDiff > 1/2 then
    let transfer := (heightDiff - 1/2) * (5/100)
    let r1 := update2 result y x (result y x - transfer)
    update2 r1 ny nx (r1 ny nx + transfer)
  else result

/-- `applyThermalErosion(heightmap, mapSize)`: row-major pass over interior
cells; per cell, the 8 neighbours in `offsetsDxDy` order (maxSlope 0.5,
erosion rate 0.05).  The scan mutates in place, so later cells see partially
updated values, exactly as in the source. -/
def applyThermalErosion (heightmap : Grid) (mapSize : ℕ) : Grid :=
  ((List.range' 2 (mapSize - 4)).flatMap fun y =>
      (List.range' 2 (mapSize - 4)).map fun x => (y, x)).foldl
    (fun result (c : ℕ × ℕ) =>
      let currentHeight := result c.1 c.2
      offsetsDxDy.foldl (thermalNeighbor c.1 c.2 currentHeight) result)
    heightmap

/-- The row-copy loop body of `smoothEdges` for ring `i`, at column `x`:
`result[i][x] = result[2][x]; result[mapSize-1-i][x] = result[mapSize-3][x]`. -/
def copyRowsStep (mapSize i : ℕ) (result : Grid) (x : ℕ) : Grid :=
  let r1 := update2 result i x (result 2 x)
  update2 r1 (mapSize - 1 - i) x (r1 (mapSize - 3) x)

/-- The column-copy loop body of `smoothEdges` for ring `i`, at row `y`:
`result[y][i] = result[y][2]; result[y][mapSize-1-i] = result[y][mapSize-3]`. -/
def copyColsStep (mapSize i : ℕ) (result : Grid) (y : ℕ) : Grid :=
  let r1 := update2 result y i (result y 2)
  update2 r1 y (mapSize - 1 - i) (r1 y (mapSize - 3))

/-- One iteration of the outer `for (i = 0; i < 2; i++)` loop of
`smoothEdges`: the row-copy loop over all `x`, then the column-copy loop
over all `y`. -/
def smoothRing (mapSize : ℕ) (result : Grid) (i : ℕ) : Grid :=
  let r1 := (List.range mapSize).foldl (copyRowsStep mapSize i) result
  (List.range mapSize).foldl (copyColsStep mapSize i) r1

/-- `smoothEdges(heightmap, mapSize)`: for `i = 0, 1`, copy rows then columns
of the outer two rings from the cell two steps inward. -/
def smoothEdges (heightmap : Grid) (mapSize : ℕ) : Grid :=
  (List.range 2).foldl (smoothRing mapSize) heightmap

-- Terrain Creation Functions (game.ts lines 1056-1093)

/-- The soil-type classification from `createTileFromHeight` (lines
1062-1066), as a function of the clamped elevation and the soil noise.
Also re-implemented verbatim in `tests/geology.spec.ts`. -/
def soilTypeOf (elevation : ℚ) (soilNoise : ℚ) : SoilType :=
  if elevation > 45 then .ROCK
  else if soilNoise > 3/10 then .SAND
  else if soilNoise < -(3/10) then .CLAY
  else .LOAM

/-- `createTileFromHeight(x, y, elevation)`. -/
def createTileFromHeight (fns : RealFns) (x y : ℕ) (elevation0 : ℚ) :
    TerrainTile :=
  let elevation := max 5 (min 150 elevation0)
  let xq : ℚ := x
  let yq : ℚ := y
  let waterTableNoise := fns.sin (xq * (1/100)) * fns.cos (yq * (1/100))
  let soilNoise := fns.sin (xq * (3/100)) * fns.sin (yq * (4/100))
  let soilType := soilTypeOf elevation soilNoise
  let bedrockTypes : List BedrockType := [.GRANITE, .LIMESTONE, .SANDSTONE, .SHALE]
  let bedrockNoise := fns.sin (xq * (5/1000)) * fns.cos (yq * (5/1000))
  let bedrockIndex := (⌊(bedrockNoise + 1) * 2⌋).toNat % bedrockTypes.length
  let bedrockType := bedrockTypes.getD bedrockIndex .GRANITE
  let geology : GeologyData :=
    { elevation := round elevation
      soilType := soilType
      soilDepth := max (1/2) (min 8 (3 + soilNoise * 2))
      bedrockType := bedrockType
      waterTableDepth := max 0 (5 + waterTableNoise * 8)
      drainage := if soilType = .SAND then 9/10 else if soilType = .CLAY then 2/10 else 6/10
      stability := if soilType = .ROCK then 1 else if soilType = .CLAY then 4/10 else 7/10
      excavationCost := if soilType = .ROCK then 4 else if soilType = .CLAY then 2 else 3/2 }
  let resources := generateResources fns geology x y
  { x := x, y := y, geology := geology
    buildable := decide (elevation < 50 ∧ geology.waterTableDepth > 1/2)
    resources := resources }

-- River Generation Functions (game.ts lines 733-815)

/-- The 8 neighbour offsets `(dy, dx)` in the scan order of `generateRivers`:
`dy` outer, `dx` inner, skipping `(0, 0)`. -/
def offsetsDyDx : List (ℤ × ℤ) :=
  [(-1, -1), (-1, 0), (-1, 1), (0, -1), (0, 1), (1, -1), (1, 0), (1, 1)]

/-- One neighbour comparison of the river-trace scan: replace the running
`(steepestX, steepestY, steepestElevation)` when the in-bounds neighbour is
strictly lower. -/
def riverNextStep (elev : ℕ → ℕ → ℤ) (mapSize currentX currentY : ℕ)
    (st : ℕ × ℕ × ℤ) (d : ℤ × ℤ) : ℕ × ℕ × ℤ :=
  let newX : ℤ := (currentX : ℤ) + d.2
  let newY : ℤ := (currentY : ℤ) + d.1
  if 0 ≤ newX ∧ newX < mapSize ∧ 0 ≤ newY ∧ newY < mapSize then
    let neighborElevation := elev newY.toNat newX.toNat
    if neighborElevation < st.2.2 then (newX.toNat, newY.toNat, neighborElevation)
    else st
  else st

/-- Steepest-descent neighbour scan of a river trace: returns
`(steepestX, steepestY, steepestElevation)`, starting from the current cell.
Neighbour elevations are read from the original (pre-river) terrain. -/
def riverNext (elev : ℕ → ℕ → ℤ) (mapSize currentX currentY : ℕ)
    (currentElevation : ℤ) : ℕ × ℕ × ℤ :=
  offsetsDyDx.foldl (riverNextStep elev mapSize currentX currentY)
    (currentX, currentY, currentElevation)

/-- The `while (true)` river-trace loop of `generateRivers`, fuel-indexed.
Returns the list of visited cells (as `(x, y)` pairs, in visit order), or
`none` if the fuel runs out before the loop breaks.  The loop breaks when a
cell is revisited, when no strictly lower neighbour exists, or when the next
elevation drops below 15. -/
def riverTraceAux (elev : ℕ → ℕ → ℤ) (mapSize : ℕ) :
    ℕ → ℕ → ℕ → ℤ → List (ℕ × ℕ) → Option (List (ℕ × ℕ))
  | 0, _, _, _, _ => none
  | fuel + 1, currentX, currentY, currentElevation, visited =>
    if (currentX, currentY) ∈ visited then some visited
    else
      let visited1 := visited ++ [(currentX, currentY)]
      let s := riverNext elev mapSize currentX currentY currentElevation
      if s.1 = currentX ∧ s.2.1 = currentY then some visited1
      else if s.2.2 < 15 then some visited1
      else riverTraceAux elev mapSize fuel s.1 s.2.1 s.2.2 visited1

/-- The river resource pushed onto every visited cell. -/
def riverResource : Resource :=
  { type := .RIVER, abundance := 9/10, seasonal := false, accessibility := 95/100 }

/-- Add a `RIVER` resource to a tile unless one is already present. -/
def addRiver (tile : TerrainTile) : TerrainTile :=
  if tile.resources.any (fun r => r.type = .RIVER) then tile
  else { tile with resources := tile.resources ++ [riverResource] }

/-- Point update of a tile grid. -/
def updateTileAt (terrain : ℕ → ℕ → TerrainTile) (y x : ℕ)
    (f : TerrainTile → TerrainTile) : ℕ → ℕ → TerrainTile :=
  fun y' x' => if y' = y ∧ x' = x then f (terrain y x) else terrain y' x'

/-- River sources: cells with elevation above 60 and either a shallow water
table or a `SPRING` resource, collected row-major as `(x, y, elevation)`. -/
def riverSources (terrain : ℕ → ℕ → TerrainTile) (mapSize : ℕ) :
    List (ℕ × ℕ × ℤ) :=
  ((List.range mapSize).flatMap fun y =>
      (List.range mapSize).map fun x => (y, x)).filterMap fun c =>
    let tile := terrain c.1 c.2
    if tile.geology.elevation > 60 ∧
        (tile.geology.waterTableDepth < 2 ∨
         tile.resources.any fun r => r.type = .SPRING) then
      some (c.2, c.1, tile.geology.elevation)
    else none

/-- `generateRivers(terrain, mapSize)`: from each source, trace the steepest
descent over the original terrain's elevations and add a `RIVER` resource to
every visited cell of the evolving copy.  The fuel `mapSize * mapSize` is
justified by the termination bound proved below: the loop always breaks
within `mapSize * mapSize` iterations when the source is in the grid. -/
def generateRivers (terrain : ℕ → ℕ → TerrainTile) (mapSize : ℕ) :
    ℕ → ℕ → TerrainTile :=
  let elev : ℕ → ℕ → ℤ := fun y x => (terrain y x).geology.elevation
  (riverSources terrain mapSize).foldl
    (fun updatedTerrain src =>
      let path :=
        (riverTraceAux elev mapSize (mapSize * mapSize) src.1 src.2.1 src.2.2 []).getD []
      path.foldl (fun u c => updateTileAt u c.2 c.1 addRiver) updatedTerrain)
    terrain

/-- `heightmapToTerrain(heightmap, mapSize)`: derive every tile from the
heightfield, then run the river tracer. -/
def heightmapToTerrain (fns : RealFns) (heightmap : Grid) (mapSize : ℕ) :
    ℕ → ℕ → TerrainTile :=
  let terrain : ℕ → ℕ → TerrainTile :=
    fun y x => createTileFromHeight fns x y (heightmap y x)
  generateRivers terrain mapSize

-- Simulation state and scheduler (game.ts lines 112-119, 1112-1141, 1404-1429)

structure Simulation where
  step : ℕ
  maxSteps : ℕ
  speed : ℚ
  lastTime : ℚ
  isActive : Bool
deriving DecidableEq, Repr

/-- The simulation-relevant fields of `GameState` (canvas, GPU handles,
camera and UI caches are presentation-layer state outside this model). -/
structure GameState where
  terrain : ℕ → ℕ → TerrainTile
  heightmap : Grid
  mapSize : ℕ
  simulation : Simulation

/-- `shouldSimulate(state)`; `currentTime` models `performance.now()`. -/
def shouldSimulate (currentTime : ℚ) (state : GameState) : Bool :=
  state.simulation.isActive &&
  decide (state.simulation.step < state.simulation.maxSteps) &&
  decide (currentTime - state.simulation.lastTime > state.simulation.speed)

/-- `updateGeologicalSimulation(state)`: when gated open, apply
uplift → hydraulic erosion → thermal erosion → edge smoothing, rebuild the
tile grid, increment the step and stamp the time; otherwise return the state
unchanged. -/
def updateGeologicalSimulation (fns : RealFns) (rndUplift rndDrops : ℕ → ℚ)
    (now : ℚ) (state : GameState) : GameState :=
  if shouldSimulate now state then
    let intensity : ℚ :=
      1 - (state.simulation.step : ℚ) / (state.simulation.maxSteps : ℚ)
    let newHeightmap :=
      smoothEdges
        (applyThermalErosion
          (applyHydraulicErosion rndDrops
            (applyTectonicUplift fns rndUplift state.heightmap state.mapSize intensity)
            state.mapSize)
          state.mapSize)
        state.mapSize
    { state with
      heightmap := newHeightmap
      terrain := heightmapToTerrain fns newHeightmap state.mapSize
      simulation := { state.simulation with
                      step := state.simulation.step + 1, lastTime := now } }
  else state

/-- `generateTerrain(state)`: fresh random heightmap, derived terrain, step
reset to 0 and `lastTime` stamped. -/
def generateTerrain (fns : RealFns) (rnd : ℕ → ℚ) (now : ℚ)
    (state : GameState) : GameState :=
  let heightmap := createHeightmap rnd state.mapSize
  let terrain := heightmapToTerrain fns heightmap state.mapSize
  { state with
    heightmap := heightmap
    terrain := terrain
    simulation := { state.simulation with step := 0, lastTime := now } }

/-- `restartGeologicalSimulation(state)`: spread of `generateTerrain(state)`
whose `simulation` field is then replaced by `{...state.simulation,
isActive: true}` — note that the replacement reads the ORIGINAL
`state.simulation`, exactly as the source does. -/
def restartGeologicalSimulation (fns : RealFns) (rnd : ℕ → ℚ) (now : ℚ)
    (state : GameState) : GameState :=
  { generateTerrain fns rnd now state with
    simulation := { state.simulation with isActive := true } }

-- Concrete instantiations used to evaluate the model at specific inputs.

/-- `RealFns` instance whose water-table noise is `-0.55`
(`sin = 1`, `cos = -0.55`), giving `waterTableDepth = 0.6`. -/
def fnsA : RealFns where
  sin := fun _ => 1
  cos := fun _ => -(55/100)
  exp := fun _ => 1
  sqrt := fun _ => 0
  sin_bound := fun _ => by norm_num
  cos_bound := fun _ => by norm_num

/-- `RealFns` instance whose water-table noise is `-0.5625`
(`sin = 1`, `cos = -9/16`), giving `waterTableDepth = 0.5`. -/
def fnsB : RealFns where
  sin := fun _ => 1
  cos := fun _ => -(9/16)
  exp := fun _ => 1
  sqrt := fun _ => 0
  sin_bound := fun _ => by norm_num
  cos_bound := fun _ => by norm_num

/-- A game state whose simulation has completed all 50 steps and is paused. -/
def doneState : GameState where
  terrain := fun y x => createTileFromHeight zeroFns x y 35
  heightmap := fun _ _ => 35
  mapSize := 50
  simulation := { step := 50, maxSteps := 50, speed := 200, lastTime := 0,
                  isActive := false }

-- ===================== Claims =====================

/-- C2 (counterexample): the claim maps `(elevation = 50, soilNoise = 0)` to
`LOAM`, but the code's classification yields `ROCK` there, because the rock
threshold `elevation > 45` fires first. -/
theorem soilType_at_50_0_not_loam : soilTypeOf 50 0 ≠ SoilType.LOAM := by
  have h : soilTypeOf 50 0 = SoilType.ROCK := by norm_num [soilTypeOf]
  rw [h]
  decide

/-- C2 (amended): the tile deriver's soil-type classification maps
`(elevation = 50, soilNoise = 0)` to `ROCK` (not `LOAM`: the elevation
threshold fires), `(46, 0)` to `ROCK`, `(40, 0.5)` to `SAND` and
`(40, -0.5)` to `CLAY`. -/
theorem soilType_classification_values :
    soilTypeOf 50 0 = SoilType.ROCK ∧
    soilTypeOf 46 0 = SoilType.ROCK ∧
    soilTypeOf 40 (1/2) = SoilType.SAND ∧
    soilTypeOf 40 (-(1/2)) = SoilType.CLAY := by
  refine ⟨?_, ?_, ?_, ?_⟩ <;> norm_num [soilTypeOf]

/-- C9: the buildable flag equals `(elevation < 50 AND waterTableDepth > 0.5)`
with both inequalities strict, where `elevation` is the clamped input
elevation; in particular a tile with elevation 49 and water table depth 0.6
is buildable, one with elevation 50 and water table depth 5 is not, and one
with elevation 40 and water table depth 0.5 is not. -/
theorem buildable_eq_and_boundary :
    (∀ (fns : RealFns) (x y : ℕ) (e : ℚ),
      (createTileFromHeight fns x y e).buildable =
        decide (max 5 (min 150 e) < 50 ∧
          (createTileFromHeight fns x y e).geology.waterTableDepth > 1/2)) ∧
    ((createTileFromHeight fnsA 0 0 49).geology.waterTableDepth = 6/10 ∧
      (createTileFromHeight fnsA 0 0 49).buildable = true) ∧
    ((createTileFromHeight zeroFns 0 0 50).geology.waterTableDepth = 5 ∧
      (createTileFromHeight zeroFns 0 0 50).buildable = false) ∧
    ((createTileFromHeight fnsB 0 0 40).geology.waterTableDepth = 1/2 ∧
      (createTileFromHeight fnsB 0 0 40).buildable = false) := by
  refine ⟨fun fns x y e => rfl, ⟨?_, ?_⟩, ⟨?_, ?_⟩, ⟨?_, ?_⟩⟩
  · simp only [createTileFromHeight, fnsA]; norm_num
  · simp only [createTileFromHeight, fnsA, decide_eq_true_iff]; norm_num
  · simp only [createTileFromHeight, zeroFns]; norm_num
  · simp only [createTileFromHeight, zeroFns, decide_eq_false_iff_not]; norm_num
  · simp only [createTileFromHeight, fnsB]; norm_num
  · simp only [createTileFromHeight, fnsB, decide_eq_false_iff_not]; norm_num

/-- C6: every tile produced by `createTileFromHeight` has elevation in
`[5, 150]`, drainage in `[0, 1]`, stability in `[0, 1]`, excavation cost in
`[1, 5]` and soil depth in `[0.5, 8]`, for every input elevation and
coordinate. -/
theorem tile_fields_within_ranges (fns : RealFns) (x y : ℕ) (e : ℚ) :
    (5 ≤ (createTileFromHeight fns x y e).geology.elevation ∧
      (createTileFromHeight fns x y e).geology.elevation ≤ 150) ∧
    (0 ≤ (createTileFromHeight fns x y e).geology.drainage ∧
      (createTileFromHeight fns x y e).geology.drainage ≤ 1) ∧
    (0 ≤ (createTileFromHeight fns x y e).geology.stability ∧
      (createTileFromHeight fns x y e).geology.stability ≤ 1) ∧
    (1 ≤ (createTileFromHeight fns x y e).geology.excavationCost ∧
      (createTileFromHeight fns x y e).geology.excavationCost ≤ 5) ∧
    ((1/2 : ℚ) ≤ (createTileFromHeight fns x y e).geology.soilDepth ∧
      (createTileFromHeight fns x y e).geology.soilDepth ≤ 8) := by
  have h5 : (5 : ℚ) ≤ max 5 (min 150 e) := le_max_left _ _
  have h150 : max 5 (min 150 e) ≤ 150 := max_le (by norm_num) (min_le_left _ _)
  refine ⟨⟨?_, ?_⟩, ?_, ?_, ?_, ⟨?_, ?_⟩⟩
  · show (5 : ℤ) ≤ round (max 5 (min 150 e))
    rw [round_eq, Int.le_floor]
    push_cast
    linarith
  · show round (max 5 (min 150 e)) ≤ (150 : ℤ)
    rw [round_eq, ← Int.lt_add_one_iff, Int.floor_lt]
    push_cast
    linarith
  · constructor <;> (simp only [createTileFromHeight]; split_ifs <;> norm_num)
  · constructor <;> (simp only [createTileFromHeight]; split_ifs <;> norm_num)
  · constructor <;> (simp only [createTileFromHeight]; split_ifs <;> norm_num)
  · exact le_max_left _ _
  · exact max_le (by norm_num) (min_le_left _ _)

/-- C4: the tile-derivation pipeline `heightmapToTerrain` is deterministic:
two runs on the same heightfield agree on every cell's soil type, bedrock
type, drainage, stability, excavation cost, buildable flag and resource
list.  In the model this is immediate because the faithful embedding of the
pipeline (tile derivation, resource placement via the coordinate-seeded
hash, and river tracing) takes no ambient random stream at all. -/
theorem heightmapToTerrain_deterministic (fns : RealFns) (heightmap : Grid)
    (mapSize y x : ℕ) :
    (heightmapToTerrain fns heightmap mapSize y x).geology.soilType =
      (heightmapToTerrain fns heightmap mapSize y x).geology.soilType ∧
    (heightmapToTerrain fns heightmap mapSize y x).geology.bedrockType =
      (heightmapToTerrain fns heightmap mapSize y x).geology.bedrockType ∧
    (heightmapToTerrain fns heightmap mapSize y x).geology.drainage =
      (heightmapToTerrain fns heightmap mapSize y x).geology.drainage ∧
    (heightmapToTerrain fns heightmap mapSize y x).geology.stability =
      (heightmapToTerrain fns heightmap mapSize y x).geology.stability ∧
    (heightmapToTerrain fns heightmap mapSize y x).geology.excavationCost =
      (heightmapToTerrain fns heightmap mapSize y x).geology.excavationCost ∧
    (heightmapToTerrain fns heightmap mapSize y x).buildable =
      (heightmapToTerrain fns heightmap mapSize y x).buildable ∧
    (heightmapToTerrain fns heightmap mapSize y x).resources =
      (heightmapToTerrain fns heightmap mapSize y x).resources :=
  ⟨rfl, rfl, rfl, rfl, rfl, rfl, rfl⟩

/-- C8: once the step counter has reached `maxSteps`,
`updateGeologicalSimulation` returns its input state unchanged — heightmap,
terrain and simulation fields included — for every clock value, active flag
and random stream. -/
theorem update_inert_after_max_steps (fns : RealFns) (rndUplift rndDrops : ℕ → ℚ)
    (now : ℚ) (state : GameState)
    (h : state.simulation.maxSteps ≤ state.simulation.step) :
    updateGeologicalSimulation fns rndUplift rndDrops now state = state := by
  have hlt : ¬ state.simulation.step < state.simulation.maxSteps :=
    Nat.not_lt.mpr h
  simp [updateGeologicalSimulation, shouldSimulate, hlt]

/-- Witness for C8 at a concrete completed state. -/
theorem update_inert_after_max_steps_witness :
    updateGeologicalSimulation zeroFns (fun _ => 0) (fun _ => 0) 1000 doneState
      = doneState :=
  update_inert_after_max_steps zeroFns (fun _ => 0) (fun _ => 0) 1000 doneState
    (by decide)

/-- C1 (code bug): `restartGeologicalSimulation` replaces the whole
`simulation` object with `{...state.simulation, isActive: true}`, discarding
the `step: 0` reset performed by `generateTerrain`.  On a completed state
(step 50) the restarted state therefore still has step 50 — not 0 as the
spec requires — even though the heightmap is freshly generated and the
active flag is set. -/
theorem restart_keeps_old_step :
    (restartGeologicalSimulation zeroFns (fun _ => 0) 1234 doneState).simulation.step = 50 ∧
    (restartGeologicalSimulation zeroFns (fun _ => 0) 1234 doneState).simulation.step ≠ 0 ∧
    (restartGeologicalSimulation zeroFns (fun _ => 0) 1234 doneState).simulation.isActive = true ∧
    (restartGeologicalSimulation zeroFns (fun _ => 0) 1234 doneState).heightmap =
      createHeightmap (fun _ => 0) doneState.mapSize :=
  ⟨rfl, by decide, rfl, rfl⟩

-- C10: thermal erosion is mass-conserving.

/-- `gridSum` as a sum over the product index set. -/
lemma gridSum_eq_sum_product (size : ℕ) (g : Grid) :
    gridSum size g =
      ∑ p ∈ Finset.range size ×ˢ Finset.range size, g p.1 p.2 := by
  rw [gridSum, Finset.sum_product]

/-- Updating one in-range cell changes the grid total by the difference of
new and old values. -/
lemma gridSum_update2 (size : ℕ) (g : Grid) (y x : ℕ) (v : ℚ)
    (hy : y < size) (hx : x < size) :
    gridSum size (update2 g y x v) = gridSum size g + v - g y x := by
  classical
  have hmem : ((y, x) : ℕ × ℕ) ∈ Finset.range size ×ˢ Finset.range size := by
    simp [Finset.mem_product, hy, hx]
  have h1 : ∀ p ∈ Finset.range size ×ˢ Finset.range size,
      update2 g y x v p.1 p.2 =
        Function.update (fun q : ℕ × ℕ => g q.1 q.2) (y, x) v p := by
    intro p _
    simp only [update2, Function.update_apply, Prod.ext_iff]
  rw [gridSum_eq_sum_product, Finset.sum_congr rfl h1,
    Finset.sum_update_of_mem hmem, gridSum_eq_sum_product,
    ← Finset.add_sum_erase _ _ hmem, Finset.sdiff_singleton_eq_erase]
  ring

/-- A single neighbour comparison of the thermal-erosion scan preserves the
grid total: what it removes from the cell it adds to the neighbour. -/
lemma gridSum_thermalNeighbor (size y x : ℕ) (ch : ℚ) (g : Grid)
    (d : ℤ × ℤ) (hy : y < size) (hx : x < size)
    (hny : ((y : ℤ) + d.2).toNat < size)
    (hnx : ((x : ℤ) + d.1).toNat < size) :
    gridSum size (thermalNeighbor y x ch g d) = gridSum size g := by
  rw [thermalNeighbor]
  split_ifs with h
  · rw [gridSum_update2 size _ _ _ _ hny hnx, gridSum_update2 size _ _ _ _ hy hx]
    ring
  · rfl

/-- Folding the neighbour scan over any list of small offsets preserves the
grid total, provided the cell has a 1-cell margin inside the grid. -/
lemma gridSum_foldl_thermalNeighbor (size y x : ℕ) (ch : ℚ)
    (hy1 : 1 ≤ y) (hy : y + 1 < size) (hx1 : 1 ≤ x) (hx : x + 1 < size) :
    ∀ (ds : List (ℤ × ℤ)) (g : Grid),
      (∀ d ∈ ds, d.1.natAbs ≤ 1 ∧ d.2.natAbs ≤ 1) →
      gridSum size (ds.foldl (thermalNeighbor y x ch) g) = gridSum size g := by
  intro ds
  induction ds with
  | nil => intro g _; rfl
  | cons d ds ih =>
    intro g hds
    have hd := hds d (List.mem_cons_self d ds)
    rw [List.foldl_cons, ih _ (fun d' hd' => hds d' (List.mem_cons_of_mem d hd'))]
    exact gridSum_thermalNeighbor size y x ch g d (by omega) (by omega)
      (by omega) (by omega)

/-- Folding the per-cell thermal pass over any list of interior cells
preserves the grid total. -/
lemma gridSum_foldl_thermalCell (size : ℕ) :
    ∀ (cs : List (ℕ × ℕ)) (g : Grid),
      (∀ c ∈ cs, 1 ≤ c.1 ∧ c.1 + 1 < size ∧ 1 ≤ c.2 ∧ c.2 + 1 < size) →
      gridSum size
        (cs.foldl
          (fun result c =>
            offsetsDxDy.foldl (thermalNeighbor c.1 c.2 (result c.1 c.2)) result)
          g) = gridSum size g := by
  intro cs
  induction cs with
  | nil => intro g _; rfl
  | cons c cs ih =>
    intro g hcs
    obtain ⟨h1, h2, h3, h4⟩ := hcs c (List.mem_cons_self c cs)
    rw [List.foldl_cons, ih _ (fun c' hc' => hcs c' (List.mem_cons_of_mem c hc'))]
    refine gridSum_foldl_thermalNeighbor size c.1 c.2 _ h1 h2 h3 h4 _ _ ?_
    intro d hd
    simp only [offsetsDxDy, List.mem_cons, List.not_mem_nil, or_false] at hd
    rcases hd with h | h | h | h | h | h | h | h <;> subst h <;> simp

/-- C10: `applyThermalErosion` preserves the total of all cell elevations of
the `mapSize × mapSize` grid: every transfer subtracts from one cell exactly
what it adds to a neighbour (and, the embedding being functional, the input
grid is unchanged by construction). -/
theorem thermalErosion_preserves_sum (heightmap : Grid) (mapSize : ℕ) :
    gridSum mapSize (applyThermalErosion heightmap mapSize) =
      gridSum mapSize heightmap := by
  rw [applyThermalErosion]
  refine gridSum_foldl_thermalCell mapSize _ heightmap ?_
  intro c hc
  simp only [List.mem_flatMap, List.mem_map, List.mem_range'_1] at hc
  obtain ⟨yy, ⟨hy1, hy2⟩, xx, ⟨hx1, hx2⟩, hcc⟩ := hc
  subst hcc
  simp only
  omega

-- C3: hydraulic erosion drop count and starting cells.

/-- C3 (counterexample): with the legal random outcome that always returns 0,
the first drop of `applyHydraulicErosion` on a 50-grid starts at `(0, 0)`,
which lies in the 2-ring border — so drop starts are NOT always interior
cells. -/
theorem hydraulic_drop_start_in_border :
    (∀ n, (0 : ℚ) ≤ (fun _ : ℕ => (0 : ℚ)) n ∧ (fun _ : ℕ => (0 : ℚ)) n < 1) ∧
    dropStart (fun _ => 0) 50 0 = (0, 0) ∧
    ¬ (2 ≤ (dropStart (fun _ => 0) 50 0).1 ∧ (dropStart (fun _ => 0) 50 0).1 < 48 ∧
       2 ≤ (dropStart (fun _ => 0) 50 0).2 ∧ (dropStart (fun _ => 0) 50 0).2 < 48) := by
  refine ⟨fun n => by norm_num, ?_, ?_⟩
  · simp [dropStart]
  · simp [dropStart]

/-- C3 (amended): `applyHydraulicErosion` simulates exactly `mapSize * 2`
drops; for every legal outcome of the injected random source each drop's
starting cell lies in the grid `[0, mapSize)²` (but may be in the 2-ring
border); and a drop whose starting cell is in the border (`x ≤ 2`,
`x ≥ mapSize - 3`, `y ≤ 2` or `y ≥ mapSize - 3`) terminates immediately,
leaving the heightfield unchanged. -/
theorem hydraulic_drops_count_and_range :
    (∀ (rnd : ℕ → ℚ) (mapSize : ℕ), (dropStarts rnd mapSize).length = mapSize * 2) ∧
    (∀ (rnd : ℕ → ℚ) (mapSize : ℕ), 0 < mapSize →
      (∀ n, 0 ≤ rnd n ∧ rnd n < 1) →
      ∀ k, (dropStart rnd mapSize k).1 < mapSize ∧
        (dropStart rnd mapSize k).2 < mapSize) ∧
    (∀ (heightmap : Grid) (mapSize x y : ℕ) (sediment : ℚ) (fuel : ℕ),
      (x ≤ 2 ∨ mapSize - 3 ≤ x ∨ y ≤ 2 ∨ mapSize - 3 ≤ y) →
      dropSteps mapSize (fuel + 1) x y sediment heightmap = heightmap) := by
  refine ⟨?_, ?_, ?_⟩
  · intro rnd mapSize
    simp [dropStarts]
  · intro rnd mapSize hm hrnd k
    have key : ∀ n, (⌊rnd n * mapSize⌋).toNat < mapSize := by
      intro n
      have h1 : rnd n * mapSize < mapSize := by
        have := (hrnd n).2
        have hpos : (0 : ℚ) < mapSize := by exact_mod_cast hm
        calc rnd n * mapSize < 1 * mapSize := by
              exact mul_lt_mul_of_pos_right this hpos
          _ = mapSize := one_mul _
      have h2 : ⌊rnd n * (mapSize : ℚ)⌋ < (mapSize : ℤ) := by
        rw [Int.floor_lt]
        exact_mod_cast h1
      omega
    exact ⟨key _, key _⟩
  · intro heightmap mapSize x y sediment fuel h
    rw [dropSteps]
    rw [if_pos h]

/-- Witness for the amended C3 at concrete inputs. -/
theorem hydraulic_drops_count_and_range_witness :
    (dropStarts (fun _ => 0) 50).length = 100 ∧
    (dropStart (fun _ => 1/2) 50 0).1 < 50 ∧
    dropSteps 50 (29 + 1) 0 0 0 (fun _ _ => 35) = (fun _ _ => 35) := by
  refine ⟨?_, ?_, ?_⟩
  · have h := hydraulic_drops_count_and_range.1 (fun _ => 0) 50
    simpa using h
  · exact (hydraulic_drops_count_and_range.2.1 (fun _ => 1/2) 50 (by norm_num)
      (fun n => by norm_num) 0).1
  · exact hydraulic_drops_count_and_range.2.2 (fun _ _ => 35) 50 0 0 0 29
      (Or.inl (by norm_num))

-- C5: edge smoothing copies the outer two rings from two cells inward.

/-- Characterisation of the row-copy loop of `smoothEdges` for ring `i`,
when the written rows `i` and `mapSize - 1 - i` are disjoint from the read
rows `2` and `mapSize - 3`. -/
lemma copyRows_spec (mapSize i : ℕ) (g : Grid)
    (hi2 : i ≠ 2) (hi3 : i ≠ mapSize - 3)
    (hj2 : mapSize - 1 - i ≠ 2) (hj3 : mapSize - 1 - i ≠ mapSize - 3)
    (hij : i ≠ mapSize - 1 - i) :
    ∀ (n : ℕ) (y x : ℕ),
      ((List.range n).foldl (copyRowsStep mapSize i) g) y x =
        if y = i ∧ x < n then g 2 x
        else if y = mapSize - 1 - i ∧ x < n then g (mapSize - 3) x
        else g y x := by
  intro n
  induction n with
  | zero => intro y x; simp
  | succ n ih =>
    intro y x
    rw [List.range_succ, List.foldl_append, List.foldl_cons, List.foldl_nil]
    simp only [copyRowsStep, update2]
    simp only [ih]
    split_ifs <;>
      first
        | rfl
        | (exfalso; omega)
        | (congr 1 <;> first | omega | (congr 1 <;> omega))

/-- Characterisation of the column-copy loop of `smoothEdges` for ring `i`,
when the written columns `i` and `mapSize - 1 - i` are disjoint from the
read columns `2` and `mapSize - 3`. -/
lemma copyCols_spec (mapSize i : ℕ) (g : Grid)
    (hi2 : i ≠ 2) (hi3 : i ≠ mapSize - 3)
    (hj2 : mapSize - 1 - i ≠ 2) (hj3 : mapSize - 1 - i ≠ mapSize - 3)
    (hij : i ≠ mapSize - 1 - i) :
    ∀ (n : ℕ) (y x : ℕ),
      ((List.range n).foldl (copyColsStep mapSize i) g) y x =
        if x = i ∧ y < n then g y 2
        else if x = mapSize - 1 - i ∧ y < n then g y (mapSize - 3)
        else g y x := by
  intro n
  induction n with
  | zero => intro y x; simp
  | succ n ih =>
    intro y x
    rw [List.range_succ, List.foldl_append, List.foldl_cons, List.foldl_nil]
    simp only [copyColsStep, update2]
    simp only [ih]
    split_ifs <;>
      first
        | rfl
        | (exfalso; omega)
        | (congr 1 <;> first | omega | (congr 1 <;> omega))

/-- Full characterisation of `smoothEdges` on grids of side length at least
5: each in-range cell reads the value at the index obtained by snapping the
outer two rings to the ring two cells inward. -/
lemma smoothEdges_spec (g : Grid) (mapSize : ℕ) (h5 : 5 ≤ mapSize)
    (y x : ℕ) (hy : y < mapSize) (hx : x < mapSize) :
    smoothEdges g mapSize y x =
      g (if y ≤ 1 then 2 else if mapSize - 2 ≤ y then mapSize - 3 else y)
        (if x ≤ 1 then 2 else if mapSize - 2 ≤ x then mapSize - 3 else x) := by
  have hrange2 : List.range 2 = [0, 1] := by decide
  rw [smoothEdges, hrange2, List.foldl_cons, List.foldl_cons, List.foldl_nil]
  simp only [smoothRing]
  have hr0 := copyRows_spec mapSize 0 g (by omega) (by omega) (by omega)
    (by omega) (by omega) mapSize
  set F0 := (List.range mapSize).foldl (copyRowsStep mapSize 0) g with hF0
  have hc0 := copyCols_spec mapSize 0 F0 (by omega) (by omega) (by omega)
    (by omega) (by omega) mapSize
  set G0 := (List.range mapSize).foldl (copyColsStep mapSize 0) F0 with hG0
  have hr1 := copyRows_spec mapSize 1 G0 (by omega) (by omega) (by omega)
    (by omega) (by omega) mapSize
  set F1 := (List.range mapSize).foldl (copyRowsStep mapSize 1) G0 with hF1
  have hc1 := copyCols_spec mapSize 1 F1 (by omega) (by omega) (by omega)
    (by omega) (by omega) mapSize
  set G1 := (List.range mapSize).foldl (copyColsStep mapSize 1) F1 with hG1
  have s0 : ∀ y' x', x' < mapSize → F0 y' x' =
      g (if y' = 0 then 2 else if y' = mapSize - 1 then mapSize - 3 else y') x' := by
    intro y' x' hx'
    rw [hr0]
    split_ifs <;>
      first
        | rfl
        | (exfalso; omega)
        | (congr 1 <;> first | omega | (congr 1 <;> omega))
  have s1 : ∀ y' x', y' < mapSize → G0 y' x' =
      F0 y' (if x' = 0 then 2 else if x' = mapSize - 1 then mapSize - 3 else x') := by
    intro y' x' hy'
    rw [hc0]
    split_ifs <;>
      first
        | rfl
        | (exfalso; omega)
        | (congr 1 <;> first | omega | (congr 1 <;> omega))
  have s2 : ∀ y' x', x' < mapSize → F1 y' x' =
      G0 (if y' = 1 then 2 else if y' = mapSize - 2 then mapSize - 3 else y') x' := by
    intro y' x' hx'
    rw [hr1]
    split_ifs <;>
      first
        | rfl
        | (exfalso; omega)
        | (congr 1 <;> first | omega | (congr 1 <;> omega))
  have s3 : ∀ y' x', y' < mapSize → G1 y' x' =
      F1 y' (if x' = 1 then 2 else if x' = mapSize - 2 then mapSize - 3 else x') := by
    intro y' x' hy'
    rw [hc1]
    split_ifs <;>
      first
        | rfl
        | (exfalso; omega)
        | (congr 1 <;> first | omega | (congr 1 <;> omega))
  rw [s3 y x hy]
  rw [s2 y _ (by split_ifs <;> omega)]
  rw [s1 _ _ (by split_ifs <;> omega)]
  rw [s0 _ _ (by split_ifs <;> omega)]
  congr 1 <;> split_ifs <;> omega

/-- C5: for every heightmap of side length at least 5, after `smoothEdges`
the border equals the value two cells inward: for `i ∈ {0, 1}` and every
in-range `j`, row `i` equals row 2, row `mapSize - 1 - i` equals row
`mapSize - 3`, column `i` equals column 2 and column `mapSize - 1 - i`
equals column `mapSize - 3`. -/
theorem smoothEdges_border_copies (g : Grid) (mapSize : ℕ) (h5 : 5 ≤ mapSize) :
    ∀ i, i < 2 → ∀ j, j < mapSize →
      (smoothEdges g mapSize i j = smoothEdges g mapSize 2 j ∧
       smoothEdges g mapSize (mapSize - 1 - i) j = smoothEdges g mapSize (mapSize - 3) j ∧
       smoothEdges g mapSize j i = smoothEdges g mapSize j 2 ∧
       smoothEdges g mapSize j (mapSize - 1 - i) = smoothEdges g mapSize j (mapSize - 3)) := by
  intro i hi j hj
  refine ⟨?_, ?_, ?_, ?_⟩ <;>
    (rw [smoothEdges_spec g mapSize h5 _ _ (by omega) (by omega),
         smoothEdges_spec g mapSize h5 _ _ (by omega) (by omega)]
     split_ifs <;>
       first
         | rfl
         | (exfalso; omega)
         | (congr 1 <;> first | omega | (congr 1 <;> omega)))

/-- A concrete nondegenerate grid used by witnesses. -/
def witnessGrid : Grid := fun y x => (y : ℚ) * 10 + (x : ℚ)

/-- Witness for C5 at a concrete grid of side length 5. -/
theorem smoothEdges_border_copies_witness :
    smoothEdges witnessGrid 5 0 3 = smoothEdges witnessGrid 5 2 3 ∧
    smoothEdges witnessGrid 5 (5 - 1 - 0) 3 = smoothEdges witnessGrid 5 (5 - 3) 3 ∧
    smoothEdges witnessGrid 5 3 0 = smoothEdges witnessGrid 5 3 2 ∧
    smoothEdges witnessGrid 5 3 (5 - 1 - 0) = smoothEdges witnessGrid 5 3 (5 - 3) :=
  smoothEdges_border_copies witnessGrid 5 (by norm_num) 0 (by norm_num) 3 (by norm_num)

-- C7: river traces terminate, never revisit a cell, and strictly descend.

/-- Invariant of the river neighbour scan: the running best is either still
the starting cell with the starting elevation, or an in-bounds cell whose
recorded elevation is its true elevation, strictly below the starting one. -/
def riverBestInv (elev : ℕ → ℕ → ℤ) (mapSize currentX currentY : ℕ)
    (currentElevation : ℤ) (st : ℕ × ℕ × ℤ) : Prop :=
  st = (currentX, currentY, currentElevation) ∨
    (st.1 < mapSize ∧ st.2.1 < mapSize ∧
     st.2.2 = elev st.2.1 st.1 ∧ st.2.2 < currentElevation)

lemma riverNext_fold_inv (elev : ℕ → ℕ → ℤ) (mapSize currentX currentY : ℕ)
    (currentElevation : ℤ) :
    ∀ (ds : List (ℤ × ℤ)) (st : ℕ × ℕ × ℤ),
      riverBestInv elev mapSize currentX currentY currentElevation st →
      riverBestInv elev mapSize currentX currentY currentElevation
        (ds.foldl (riverNextStep elev mapSize currentX currentY) st) := by
  intro ds
  induction ds with
  | nil => intro st h; exact h
  | cons d ds ih =>
    intro st h
    rw [List.foldl_cons]
    apply ih
    simp only [riverNextStep]
    split_ifs with h1 h2
    · right
      refine ⟨?_, ?_, rfl, ?_⟩
      · show ((currentX : ℤ) + d.2).toNat < mapSize
        omega
      · show ((currentY : ℤ) + d.1).toNat < mapSize
        omega
      · show elev ((currentY : ℤ) + d.1).toNat ((currentX : ℤ) + d.2).toNat <
          currentElevation
        rcases h with h | h
        · rw [h] at h2
          exact h2
        · exact lt_trans h2 h.2.2.2
    · exact h
    · exact h

/-- The steepest-descent scan either keeps the current cell (no strictly
lower neighbour) or returns an in-bounds cell whose recorded elevation is
its true elevation, strictly below the current one. -/
lemma riverNext_spec (elev : ℕ → ℕ → ℤ) (mapSize currentX currentY : ℕ)
    (currentElevation : ℤ) :
    riverBestInv elev mapSize currentX currentY currentElevation
      (riverNext elev mapSize currentX currentY currentElevation) :=
  riverNext_fold_inv elev mapSize currentX currentY currentElevation
    offsetsDyDx _ (Or.inl rfl)

/-- A duplicate-free list of cells of the `mapSize × mapSize` grid has at
most `mapSize * mapSize` entries. -/
lemma nodup_grid_length_le (mapSize : ℕ) (l : List (ℕ × ℕ)) (hnd : l.Nodup)
    (hmem : ∀ p ∈ l, p.1 < mapSize ∧ p.2 < mapSize) :
    l.length ≤ mapSize * mapSize := by
  classical
  have hsub : l.toFinset ⊆ Finset.range mapSize ×ˢ Finset.range mapSize := by
    intro p hp
    rw [List.mem_toFinset] at hp
    obtain ⟨h1, h2⟩ := hmem p hp
    simp [Finset.mem_product, h1, h2]
  have hcard := Finset.card_le_card hsub
  rw [List.toFinset_card_of_nodup hnd] at hcard
  simpa [Finset.card_product] using hcard

/-- Main induction for C7: with enough fuel relative to the unvisited
capacity of the grid, the river-trace loop returns, and the resulting visit
list is duplicate-free with strictly decreasing elevations. -/
lemma riverTrace_spec (elev : ℕ → ℕ → ℤ) (mapSize : ℕ) :
    ∀ (fuel : ℕ) (cx cy : ℕ) (visited : List (ℕ × ℕ)),
      cx < mapSize → cy < mapSize →
      visited.Nodup →
      (∀ p ∈ visited, p.1 < mapSize ∧ p.2 < mapSize) →
      (∀ p ∈ visited, elev cy cx < elev p.2 p.1) →
      List.Chain' (fun a b => elev b.2 b.1 < elev a.2 a.1) (visited ++ [(cx, cy)]) →
      mapSize * mapSize + 1 ≤ fuel + visited.length + 1 →
      ∃ l, riverTraceAux elev mapSize fuel cx cy (elev cy cx) visited = some l ∧
        l.Nodup ∧ List.Chain' (fun a b => elev b.2 b.1 < elev a.2 a.1) l := by
  intro fuel
  induction fuel with
  | zero =>
    intro cx cy visited hcx hcy hnd hmem helev hchain hfuel
    exfalso
    have hnotmem : (cx, cy) ∉ visited := fun hc => absurd (helev _ hc) (lt_irrefl _)
    have hnd' : (visited ++ [(cx, cy)]).Nodup := by
      rw [List.nodup_append]
      exact ⟨hnd, List.nodup_singleton _, by simpa [List.disjoint_singleton] using hnotmem⟩
    have hmem' : ∀ p ∈ visited ++ [(cx, cy)], p.1 < mapSize ∧ p.2 < mapSize := by
      intro p hp
      rcases List.mem_append.mp hp with h | h
      · exact hmem p h
      · rw [List.mem_singleton] at h
        subst h
        exact ⟨hcx, hcy⟩
    have hlen := nodup_grid_length_le mapSize _ hnd' hmem'
    rw [List.length_append, List.length_singleton] at hlen
    omega
  | succ fuel ih =>
    intro cx cy visited hcx hcy hnd hmem helev hchain hfuel
    have hnotmem : (cx, cy) ∉ visited := fun hc => absurd (helev _ hc) (lt_irrefl _)
    have hnd' : (visited ++ [(cx, cy)]).Nodup := by
      rw [List.nodup_append]
      exact ⟨hnd, List.nodup_singleton _, by simpa [List.disjoint_singleton] using hnotmem⟩
    have hmem' : ∀ p ∈ visited ++ [(cx, cy)], p.1 < mapSize ∧ p.2 < mapSize := by
      intro p hp
      rcases List.mem_append.mp hp with h | h
      · exact hmem p h
      · rw [List.mem_singleton] at h
        subst h
        exact ⟨hcx, hcy⟩
    rw [riverTraceAux, if_neg hnotmem]
    have hspec := riverNext_spec elev mapSize cx cy (elev cy cx)
    set s := riverNext elev mapSize cx cy (elev cy cx) with hs
    simp only
    split_ifs with hb1 hb2
    · exact ⟨_, rfl, hnd', hchain⟩
    · exact ⟨_, rfl, hnd', hchain⟩
    · rcases hspec with hL | ⟨hs1, hs2, hse, hslt⟩
      · exact absurd (by rw [hL]; exact ⟨rfl, rfl⟩) hb1
      · have hlow : elev s.2.1 s.1 < elev cy cx := by rw [← hse]; exact hslt
        have helev' : ∀ p ∈ visited ++ [(cx, cy)], elev s.2.1 s.1 < elev p.2 p.1 := by
          intro p hp
          rcases List.mem_append.mp hp with h | h
          · exact lt_trans hlow (helev p h)
          · rw [List.mem_singleton] at h
            subst h
            exact hlow
        have hchain' : List.Chain' (fun a b => elev b.2 b.1 < elev a.2 a.1)
            ((visited ++ [(cx, cy)]) ++ [(s.1, s.2.1)]) := by
          rw [List.chain'_append]
          refine ⟨hchain, List.chain'_singleton _, ?_⟩
          intro a ha b hb
          rw [List.getLast?_concat] at ha
          rw [List.head?_cons] at hb
          simp only [Option.mem_def, Option.some.injEq] at ha hb
          subst ha
          subst hb
          exact hlow
        have hfuel' : mapSize * mapSize + 1 ≤ fuel + (visited ++ [(cx, cy)]).length + 1 := by
          rw [List.length_append, List.length_singleton]
          omega
        have hrec := ih s.1 s.2.1 (visited ++ [(cx, cy)]) hs1 hs2 hnd' hmem'
          helev' hchain' hfuel'
        rw [hse]
        exact hrec

/-- C7: from any in-grid source cell, the river-trace loop terminates within
`mapSize * mapSize` iterations (that much fuel is never exhausted), never
visits the same cell twice, and after the source cell each visited cell's
elevation is strictly lower than the previous one. -/
theorem river_trace_terminates (elev : ℕ → ℕ → ℤ) (mapSize cx cy : ℕ)
    (hcx : cx < mapSize) (hcy : cy < mapSize) :
    ∃ l, riverTraceAux elev mapSize (mapSize * mapSize) cx cy (elev cy cx) [] = some l ∧
      l.Nodup ∧ List.Chain' (fun a b => elev b.2 b.1 < elev a.2 a.1) l := by
  refine riverTrace_spec elev mapSize (mapSize * mapSize) cx cy [] hcx hcy
    List.nodup_nil (by simp) (by simp) ?_ (by simp)
  simp

/-- Witness for C7 on a concrete one-cell grid. -/
theorem river_trace_terminates_witness :
    ∃ l, riverTraceAux (fun _ _ => (0 : ℤ)) 1 (1 * 1) 0 0
        ((fun _ _ => (0 : ℤ)) 0 0) [] = some l ∧
      l.Nodup ∧
      List.Chain' (fun a b => (fun _ _ => (0 : ℤ)) b.2 b.1 <
        (fun _ _ => (0 : ℤ)) a.2 a.1) l :=
  river_trace_terminates (fun _ _ => 0) 1 0 0 (by norm_num) (by norm_num)

end VibeCity
